import Mathlib

/-!
Verification development for the DC-microgrid simulation core
(`src/microgrid_model/components.py`, `src/microgrid_model/network.py`,
`src/ai_protection/fault_detection.py`, `src/ai_protection/adaptive_relay.py`).

Python floats are modelled by exact rationals (ℚ); Python operations that can
raise (float division by zero, sklearn scaler calls on empty input) are
modelled by `Option`, with `none` standing for a raised exception.
-/

namespace Microgrid

/-- Models the exact rational value of the IEEE-754 double `np.pi`
(numpy's constant, used by `WindTurbine.calculate_power`). -/
def np_pi : ℚ := 884279719003555 / 281474976710656

/-- Models Python float division `x / y`, which raises `ZeroDivisionError`
when the divisor is zero; `none` stands for the raised exception. -/
def pydiv (x y : ℚ) : Option ℚ :=
  if y = 0 then none else some (x / y)

/-- Configuration of `PVSystem` (`components.py` lines 15-29): all fields are
set in `__init__` and never mutated. -/
structure PVSystem where
  rated_power : ℚ
  efficiency : ℚ
  temp_coefficient : ℚ
  panel_area : ℚ
  reference_temp : ℚ
deriving Repr, DecidableEq

/-- Embeds `PVSystem.calculate_power` (`components.py` lines 31-49):
temperature-corrected PV output, limited above by `rated_power`
(the source applies `min` only; there is no lower clamp at 0). -/
def PVSystem.calculate_power (s : PVSystem) (irradiance temperature : ℚ) : ℚ :=
  let temp_factor := 1 + s.temp_coefficient * (temperature - s.reference_temp)
  let power := (irradiance / 1000) * s.panel_area * s.efficiency * temp_factor
  min power s.rated_power

/-- Configuration of `WindTurbine` (`components.py` lines 65-81). -/
structure WindTurbine where
  rated_power : ℚ
  cut_in_speed : ℚ
  rated_speed : ℚ
  cut_out_speed : ℚ
  rotor_diameter : ℚ
  air_density : ℚ
  power_coefficient : ℚ
deriving Repr, DecidableEq

/-- Embeds `WindTurbine.calculate_power` (`components.py` lines 83-104): 0 outside
the cut-in/cut-out band, `rated_power` at or above rated speed, otherwise the
cubic aerodynamic formula converted to kW and limited by `rated_power`. -/
def WindTurbine.calculate_power (t : WindTurbine) (wind_speed : ℚ) : ℚ :=
  if wind_speed < t.cut_in_speed ∨ wind_speed > t.cut_out_speed then 0
  else if wind_speed ≥ t.rated_speed then t.rated_power
  else
    let swept_area := np_pi * (t.rotor_diameter / 2) ^ 2
    let power := (1 / 2) * t.air_density * swept_area * t.power_coefficient * wind_speed ^ 3
    min (power / 1000) t.rated_power

/-- State of `BatteryStorage` (`components.py` lines 122-142): the
configuration fields plus the two mutable fields `soc` and `cycle_count`. -/
structure BatteryStorage where
  capacity : ℚ
  max_charge_rate : ℚ
  max_discharge_rate : ℚ
  efficiency : ℚ
  min_soc : ℚ
  max_soc : ℚ
  soc : ℚ
  cycle_count : ℚ
deriving Repr, DecidableEq

/-- Embeds `BatteryStorage.charge` (`components.py` lines 144-168), with the in-place
mutation of `self.soc` made explicit: returns `(actual_power, updated battery)`
where the updated battery's `soc` is the Python method's returned `new_soc`. -/
def BatteryStorage.charge (b : BatteryStorage) (power dt : ℚ) :
    ℚ × BatteryStorage :=
  let actual_power := min power b.max_charge_rate
  let energy := actual_power * dt * b.efficiency
  let new_soc := b.soc + energy / b.capacity
  if new_soc > b.max_soc then
    ((b.max_soc - b.soc) * b.capacity / (dt * b.efficiency),
      { b with soc := b.max_soc })
  else
    (actual_power, { b with soc := new_soc })

/-- Embeds `BatteryStorage.discharge` (`components.py` lines 170-196), state-passing
form; the cycle counter gains `dt / 2` on every call. -/
def BatteryStorage.discharge (b : BatteryStorage) (power dt : ℚ) :
    ℚ × BatteryStorage :=
  let actual_power := min power b.max_discharge_rate
  let energy := actual_power * dt / b.efficiency
  let new_soc := b.soc - energy / b.capacity
  if new_soc < b.min_soc then
    ((b.soc - b.min_soc) * b.capacity * b.efficiency / dt,
      { b with soc := b.min_soc, cycle_count := b.cycle_count + dt / 2 })
  else
    (actual_power, { b with soc := new_soc, cycle_count := b.cycle_count + dt / 2 })

/-- Configuration of `Load` (`components.py` lines 217-230). -/
structure Load where
  power : ℚ
  priority : ℚ
  power_factor : ℚ
  voltage_dependency : ℚ
deriving Repr, DecidableEq

/-- Embeds `Load.calculate_power` (`components.py` lines 232-244):
`power * (voltage/base_voltage) ** voltage_dependency`. Python's float `**`
with a fractional exponent has no exact rational value, so the exponential is
taken as an explicit parameter `fpow` (the libm `pow` primitive); theorems
that need its value constrain it by the identities libm `pow` satisfies. -/
def Load.calculate_power (l : Load) (fpow : ℚ → ℚ → ℚ)
    (voltage base_voltage : ℚ) : ℚ :=
  l.power * fpow (voltage / base_voltage) l.voltage_dependency

/-- Embeds `Load.get_current` (`components.py` lines 246-258): explicit zero-voltage
guard returning 0, otherwise `power * 1000 / voltage`. -/
def Load.get_current (l : Load) (voltage : ℚ) : ℚ :=
  if voltage = 0 then 0 else l.power * 1000 / voltage

/-- The dictionary returned by `DCMicrogrid.calculate_power_balance`
(`network.py` lines 130-140). -/
structure PowerBalanceResult where
  pv_power : ℚ
  wind_power : ℚ
  total_generation : ℚ
  total_load : ℚ
  battery_power : ℚ
  battery_soc : ℚ
  net_power : ℚ
  voltage : ℚ
  power_deficit : ℚ
deriving Repr, DecidableEq

/-- State of `DCMicrogrid` (`network.py` lines 17-70): after
`_initialize_components`, each source component is present exactly when its
configuration section is enabled (`network.py` lines 50-70), so the optional
component objects model the enabled flags; the two cumulative energy counters
are the mutable metrics that `calculate_power_balance` updates. -/
structure DCMicrogrid where
  voltage_level : ℚ
  current_voltage : ℚ
  pv_system : Option PVSystem
  wind_turbine : Option WindTurbine
  battery : Option BatteryStorage
  loads : List Load
  energy_generated : ℚ
  energy_consumed : ℚ
deriving Repr, DecidableEq

/-- The battery-operation block of `calculate_power_balance`
(`network.py` lines 111-121): given the optional battery and the power
deficit, returns `(battery_power, battery_soc, updated battery)`; both
reported values stay 0 when no battery is configured. -/
def battery_step (battery : Option BatteryStorage) (power_deficit dt : ℚ) :
    ℚ × ℚ × Option BatteryStorage :=
  match battery with
  | some b =>
    if power_deficit > 0 then
      let r := b.discharge power_deficit dt
      (r.1, r.2.soc, some r.2)
    else if power_deficit < 0 then
      let r := b.charge (-power_deficit) dt
      (r.1, r.2.soc, some r.2)
    else
      ((0 : ℚ), b.soc, some b)
  | none => ((0 : ℚ), (0 : ℚ), none)

/-- Embeds `DCMicrogrid.calculate_power_balance` (`network.py` lines 72-140), with
battery mutation and metric accumulation made explicit: returns the result
record and the updated system state. `fpow` models Python float `**` used by
`Load.calculate_power`. -/
def DCMicrogrid.calculate_power_balance (g : DCMicrogrid) (fpow : ℚ → ℚ → ℚ)
    (irradiance temperature wind_speed dt : ℚ) :
    PowerBalanceResult × DCMicrogrid :=
  let pv_power :=
    match g.pv_system with
    | some s => s.calculate_power irradiance temperature
    | none => 0
  let wind_power :=
    match g.wind_turbine with
    | some t => t.calculate_power wind_speed
    | none => 0
  let total_generation := pv_power + wind_power
  let total_load :=
    (g.loads.map (fun l =>
      l.calculate_power fpow g.current_voltage g.voltage_level)).sum
  let power_deficit := total_load - total_generation
  let step := battery_step g.battery power_deficit dt
  let battery_power := step.1
  let battery_soc := step.2.1
  let net_power := total_generation + battery_power - total_load
  ({ pv_power := pv_power
     wind_power := wind_power
     total_generation := total_generation
     total_load := total_load
     battery_power := battery_power
     battery_soc := battery_soc
     net_power := net_power
     voltage := g.current_voltage
     power_deficit := power_deficit },
   { g with
     battery := step.2.2
     energy_generated := g.energy_generated + total_generation * dt
     energy_consumed := g.energy_consumed + total_load * dt })

/-- The `protection` configuration section read by `check_system_stability`
(`network.py` line 152). -/
structure ProtectionConfig where
  undervoltage_threshold : ℚ
  overvoltage_threshold : ℚ
  overcurrent_threshold : ℚ
deriving Repr, DecidableEq

/-- The dictionary returned by `DCMicrogrid.check_system_stability`
(`network.py` lines 167-174). -/
structure StabilityReport where
  stable : Bool
  voltage_pu : ℚ
  undervoltage : Bool
  overvoltage : Bool
  overcurrent : Bool
  total_current : ℚ
deriving Repr, DecidableEq

/-- Embeds `DCMicrogrid.check_system_stability` (`network.py` lines 142-174).
Both divisions are Python float divisions with no zero guard in the source,
so they are modelled with `pydiv`; `none` stands for a raised
`ZeroDivisionError`. -/
def DCMicrogrid.check_system_stability (g : DCMicrogrid)
    (prot : ProtectionConfig) (pb : PowerBalanceResult) :
    Option StabilityReport :=
  match pydiv g.current_voltage g.voltage_level with
  | none => none
  | some voltage_pu =>
    let undervoltage := decide (voltage_pu < prot.undervoltage_threshold)
    let overvoltage := decide (voltage_pu > prot.overvoltage_threshold)
    match pydiv (pb.net_power * 1000) g.current_voltage with
    | none => none
    | some signed_current =>
      let total_current := |signed_current|
      let rated_current : ℚ := 100
      let overcurrent :=
        decide (total_current > rated_current * prot.overcurrent_threshold)
      some { stable := !(undervoltage || overvoltage || overcurrent)
             voltage_pu := voltage_pu
             undervoltage := undervoltage
             overvoltage := overvoltage
             overcurrent := overcurrent
             total_current := total_current }

/-- First index of the maximum of a list, the behaviour of `np.argmax`
(ties keep the earliest index): auxiliary scan. -/
def np_argmax_go : List ℚ → ℚ → ℕ → ℕ → ℕ
  | [], _, _, best_i => best_i
  | x :: xs, best_v, i, best_i =>
    if x > best_v then np_argmax_go xs x (i + 1) i
    else np_argmax_go xs best_v (i + 1) best_i

/-- Models `np.argmax` on a probability vector (`fault_detection.py` line 177):
index of the first occurrence of the maximum; 0 on the empty list. -/
def np_argmax : List ℚ → ℕ
  | [] => 0
  | x :: xs => np_argmax_go xs x 1 0

/-- Models `np.max` on a nonempty vector (`adaptive_relay.py` line 162). -/
def np_max (l : List ℚ) : ℚ := l.foldl max (l.headD 0)

/-- The `fault_types` list of `FaultDetector.__init__`
(`fault_detection.py` lines 36-44). -/
def fault_types : List String :=
  ["no_fault", "short_circuit", "open_circuit", "ground_fault",
   "overcurrent", "undervoltage", "overvoltage"]

/-- Configuration of `FaultDetector` (`fault_detection.py` lines 18-46):
the fields `detect_fault` reads. -/
structure FaultDetector where
  sequence_length : ℕ
  confidence_threshold : ℚ
deriving Repr, DecidableEq

/-- The dictionary returned by `FaultDetector.detect_fault`
(`fault_detection.py` lines 166-171 and 185-193); `message` is present only
in the insufficient-data branch. -/
structure FaultDetectionResult where
  fault_detected : Bool
  fault_type : String
  confidence : ℚ
  message : Option String
deriving Repr, DecidableEq

/-- Models `sklearn.preprocessing.StandardScaler.fit_transform` as called by
`FaultDetector.preprocess_data` (`fault_detection.py` lines 106-121): the
scaler raises `ValueError` on an input with zero samples (`none` models the
raise) and otherwise applies its affine per-feature `transform`, which is an
abstract parameter here since its coefficients depend on fitted statistics. -/
def sklearn_fit_transform {α : Type} (transform : List α → List α)
    (data : List α) : Option (List α) :=
  if data.isEmpty then none else some (transform data)

/-- Embeds `FaultDetector.preprocess_data` (`fault_detection.py` lines 106-121):
delegates to the scaler's fit-transform. -/
def FaultDetector.preprocess_data {α : Type} (_fd : FaultDetector)
    (transform : List α → List α) (data : List α) : Option (List α) :=
  sklearn_fit_transform transform data

/-- Embeds `FaultDetector.detect_fault` (`fault_detection.py` lines 151-193).
`transform` models the fitted scaler; `model_predict` models
`self.model.predict` applied to the last window (`create_sequences` at lines
123-149 builds all windows and line 176 keeps only the last one, i.e. the
last `sequence_length` preprocessed samples), returning the class-probability
vector `predictions[0]`. `none` models a raised exception. -/
def FaultDetector.detect_fault {α : Type} (fd : FaultDetector)
    (transform : List α → List α) (model_predict : List α → List ℚ)
    (data : List α) : Option FaultDetectionResult :=
  match fd.preprocess_data transform data with
  | none => none
  | some processed =>
    if processed.length < fd.sequence_length then
      some { fault_detected := false
             fault_type := "no_fault"
             confidence := 0
             message := some "Insufficient data for detection" }
    else
      let window := processed.drop (processed.length - fd.sequence_length)
      let predictions := model_predict window
      let fault_idx := np_argmax predictions
      let confidence := predictions.getD fault_idx 0
      some { fault_detected :=
               decide (fault_idx ≠ 0) && decide (confidence ≥ fd.confidence_threshold)
             fault_type := fault_types.getD fault_idx ""
             confidence := confidence
             message := none }

/-- The per-sample target construction inside `AdaptiveRelayCoordinator.replay`
(`adaptive_relay.py` lines 157-162): the current Q-vector for the sampled
state has the taken action's entry replaced by `reward` when `done`, else by
`reward + discount_factor * np.max(next_q)`; the network is then fitted one
gradient step toward this target (line 165), which is outside the
embedding. -/
def replay_q_target (current_q : List ℚ) (action : ℕ) (reward : ℚ)
    (discount_factor : ℚ) (next_q : List ℚ) (done : Bool) : List ℚ :=
  if done then current_q.set action reward
  else current_q.set action (reward + discount_factor * np_max next_q)

/-- Modelled from the spec: the tabular Q-learning rule the specification
ascribes to the coordinator,
`Q(s,a) <- Q(s,a) + lr * (reward + gamma * max Q(next) - Q(s,a))`,
with unseen states defaulting to an all-zero action vector (hence `getD 0`).
Stated only to be compared with `replay_q_target`, the rule the code
implements. -/
def spec_tabular_q_update (q : List ℚ) (action : ℕ) (lr reward gamma : ℚ)
    (next_q : List ℚ) : List ℚ :=
  let qsa := q.getD action 0
  q.set action (qsa + lr * (reward + gamma * np_max next_q - qsa))

/-- One call in a battery usage history: `charge(power, dt)` or
`discharge(power, dt)` (`components.py` lines 144-196). -/
inductive BatteryOp where
  | charge_op (power dt : ℚ)
  | discharge_op (power dt : ℚ)
deriving Repr, DecidableEq

/-- A call with nonnegative power and a positive time step. -/
def BatteryOp.valid : BatteryOp → Prop
  | .charge_op p dt => 0 ≤ p ∧ 0 < dt
  | .discharge_op p dt => 0 ≤ p ∧ 0 < dt

instance : DecidablePred BatteryOp.valid := by
  intro op
  cases op <;> exact instDecidableAnd

/-- State reached after one charge or discharge call. -/
def BatteryStorage.apply_op (b : BatteryStorage) : BatteryOp → BatteryStorage
  | .charge_op p dt => (b.charge p dt).2
  | .discharge_op p dt => (b.discharge p dt).2

/-- State reached after a sequence of charge/discharge calls. -/
def BatteryStorage.apply_ops (b : BatteryStorage) (ops : List BatteryOp) :
    BatteryStorage :=
  ops.foldl BatteryStorage.apply_op b

/-- Concrete `PVSystem` at the defaults of `components.py` lines 25-29. -/
def pv_default : PVSystem :=
  { rated_power := 50, efficiency := 18 / 100, temp_coefficient := -(1 / 250),
    panel_area := 278, reference_temp := 25 }

/-- Concrete `WindTurbine` at the defaults of `components.py` lines 75-81. -/
def wt_default : WindTurbine :=
  { rated_power := 30, cut_in_speed := 3, rated_speed := 12,
    cut_out_speed := 25, rotor_diameter := 8, air_density := 1225 / 1000,
    power_coefficient := 4 / 10 }

/-- Concrete `BatteryStorage` at the defaults of `components.py`
lines 132-141. -/
def bat_default : BatteryStorage :=
  { capacity := 100, max_charge_rate := 50, max_discharge_rate := 50,
    efficiency := 9 / 10, min_soc := 1 / 5, max_soc := 19 / 20,
    soc := 1 / 2, cycle_count := 0 }

/-- Concrete `Load` at the defaults of `components.py` lines 227-230. -/
def load_default : Load :=
  { power := 50, priority := 2, power_factor := 95 / 100,
    voltage_dependency := 3 / 2 }

/-- Concrete instantiation of the float-`pow` parameter used in closed
instances: exact on integer exponents and on base 1 (libm `pow(1.0, y)` is
exactly 1.0), the only cases the closed instances below exercise. -/
def pow_model (x y : ℚ) : ℚ :=
  if x = 1 then 1 else if y.den = 1 then x ^ y.num else 1

/-- Concrete `FaultDetector` at the defaults of `fault_detection.py`
lines 28-29. -/
def fd_default : FaultDetector :=
  { sequence_length := 100, confidence_threshold := 85 / 100 }

/-- Small concrete `FaultDetector` for closed instances of the gate. -/
def fd_small : FaultDetector :=
  { sequence_length := 2, confidence_threshold := 85 / 100 }

/-- Concrete microgrid: default PV, no wind, default battery, no loads
(`bess.enabled` true, other component sections as in the shipped config). -/
def grid_pv_bat : DCMicrogrid :=
  { voltage_level := 400, current_voltage := 400,
    pv_system := some pv_default, wind_turbine := none,
    battery := some bat_default, loads := [],
    energy_generated := 0, energy_consumed := 0 }

/-- Concrete microgrid: no sources, default battery, one 20 kW load. -/
def grid_load_bat : DCMicrogrid :=
  { voltage_level := 400, current_voltage := 400,
    pv_system := none, wind_turbine := none,
    battery := some bat_default,
    loads := [{ load_default with power := 20 }],
    energy_generated := 0, energy_consumed := 0 }

/-- Concrete microgrid with `bess` disabled (no battery object). -/
def grid_no_bat : DCMicrogrid :=
  { voltage_level := 400, current_voltage := 400,
    pv_system := none, wind_turbine := none,
    battery := none, loads := [load_default],
    energy_generated := 0, energy_consumed := 0 }

/-- Concrete microgrid whose bus voltage is zero. -/
def grid_zero_voltage : DCMicrogrid :=
  { voltage_level := 400, current_voltage := 0,
    pv_system := none, wind_turbine := none,
    battery := none, loads := [],
    energy_generated := 0, energy_consumed := 0 }

/-- Concrete protection thresholds (shipped configuration values). -/
def prot_default : ProtectionConfig :=
  { undervoltage_threshold := 9 / 10, overvoltage_threshold := 11 / 10,
    overcurrent_threshold := 3 / 2 }

/-- Concrete power-balance record fed to the stability check. -/
def pb_sample : PowerBalanceResult :=
  { pv_power := 0, wind_power := 0, total_generation := 0, total_load := 20,
    battery_power := 20, battery_soc := 5 / 18, net_power := 10,
    voltage := 400, power_deficit := 20 }

/-! Helper lemmas about `List.set` and `List.getD`. -/

lemma getD_set_self : ∀ (l : List ℚ) (i : ℕ) (x : ℚ), i < l.length →
    (l.set i x).getD i 0 = x := by
  intro l
  induction l with
  | nil => intro i x h; simp at h
  | cons a t ih =>
    intro i x h
    cases i with
    | zero => simp
    | succ n =>
      simp only [List.set, List.getD, List.getElem?_cons_succ]
      exact ih n x (by simpa using h)

lemma getD_set_ne : ∀ (l : List ℚ) (i j : ℕ) (x : ℚ), j ≠ i →
    (l.set i x).getD j 0 = l.getD j 0 := by
  intro l
  induction l with
  | nil => intro i j x _; simp
  | cons a t ih =>
    intro i j x hne
    cases i with
    | zero =>
      cases j with
      | zero => exact absurd rfl hne
      | succ m => simp [List.getD]
    | succ n =>
      cases j with
      | zero => simp [List.getD]
      | succ m =>
        simp only [List.set, List.getD, List.getElem?_cons_succ]
        exact ih n m x (fun h => hne (by rw [h]))

lemma set_getD_self : ∀ (l : List ℚ) (i : ℕ), l.set i (l.getD i 0) = l := by
  intro l
  induction l with
  | nil => intro i; simp
  | cons a t ih =>
    intro i
    cases i with
    | zero => simp [List.getD]
    | succ n =>
      simp only [List.set, List.getD, List.getElem?_cons_succ, List.cons.injEq,
        true_and]
      exact ih n

/-- C9 counterexample: with the code's default learning rate 0.001, the
target constructed by `replay` at `Q(s) = 0`, action 0, reward 1, discount 0
replaces the entry by the full TD target 1, whereas the tabular rule the
claim states would move it only to `0.001`; the update of
`AdaptiveRelayCoordinator` is not the stated alpha-weighted tabular rule. -/
theorem c9_counterexample :
    replay_q_target [0, 0, 0, 0] 0 1 0 [0, 0, 0, 0] false ≠
      spec_tabular_q_update [0, 0, 0, 0] 0 (1 / 1000) 1 0 [0, 0, 0, 0] := by
  simp [replay_q_target, spec_tabular_q_update, np_max, List.getD]

/-- C9 (amended): each `replay` target construction replaces the taken
action's Q-entry by the alpha-free TD target `reward + gamma * max Q(next)`
(`reward` alone on terminal samples), leaves the other entries unchanged, and
with reward 0 and discount 0 a zero-valued entry's target vector equals the
current vector; the network is then fitted one gradient step toward this
target, and no tabular Q-table or alpha-weighted update exists in the code. -/
theorem c9_replay_target (q next_q : List ℚ) (a : ℕ) (reward gamma : ℚ)
    (ha : a < q.length) :
    (replay_q_target q a reward gamma next_q false).getD a 0 =
        reward + gamma * np_max next_q ∧
    (replay_q_target q a reward gamma next_q true).getD a 0 = reward ∧
    (∀ j, j ≠ a → (replay_q_target q a reward gamma next_q false).getD j 0 =
        q.getD j 0) ∧
    (reward = 0 → gamma = 0 → q.getD a 0 = 0 →
        replay_q_target q a reward gamma next_q false = q) := by
  refine ⟨?_, ?_, ?_, ?_⟩
  · unfold replay_q_target
    simp only [Bool.false_eq_true, if_false]
    exact getD_set_self q a _ ha
  · unfold replay_q_target
    simp only [if_true]
    exact getD_set_self q a _ ha
  · intro j hj
    unfold replay_q_target
    simp only [Bool.false_eq_true, if_false]
    exact getD_set_ne q a j _ hj
  · intro hr hg hq
    unfold replay_q_target
    simp only [Bool.false_eq_true, if_false, hr, hg, zero_mul, add_zero]
    calc q.set a 0 = q.set a (q.getD a 0) := by rw [hq]
    _ = q := set_getD_self q a

/-- C9 witness: the amended target property evaluated at a concrete
transition. -/
theorem c9_witness :
    2 < ([1, 2, 3, 4] : List ℚ).length ∧
    ((replay_q_target [1, 2, 3, 4] 2 5 (1 / 2) [1, 0, 7, 0] false).getD 2 0 =
        5 + (1 / 2) * np_max [1, 0, 7, 0] ∧
      (replay_q_target [1, 2, 3, 4] 2 5 (1 / 2) [1, 0, 7, 0] true).getD 2 0 = 5 ∧
      (∀ j, j ≠ 2 →
        (replay_q_target [1, 2, 3, 4] 2 5 (1 / 2) [1, 0, 7, 0] false).getD j 0 =
          ([1, 2, 3, 4] : List ℚ).getD j 0) ∧
      ((5 : ℚ) = 0 → (1 / 2 : ℚ) = 0 → ([1, 2, 3, 4] : List ℚ).getD 2 0 = 0 →
        replay_q_target [1, 2, 3, 4] 2 5 (1 / 2) [1, 0, 7, 0] false =
          [1, 2, 3, 4])) :=
  ⟨by decide, c9_replay_target [1, 2, 3, 4] [1, 0, 7, 0] 2 5 (1 / 2) (by decide)⟩

/-- C4 counterexample: at the default PV configuration, irradiance −1000 W/m²
and 25 °C give a strictly negative output (−50.04 kW): the source applies
only the upper `min` against `rated_power` and no lower clamp at 0, so the
output is not confined to `[0, rated_power]`. -/
theorem c4_counterexample :
    pv_default.calculate_power (-1000) 25 = -(1251 / 25) ∧
    pv_default.calculate_power (-1000) 25 < 0 := by
  constructor <;> norm_num [pv_default, PVSystem.calculate_power, min_def]

/-- C4 (amended): `PVSystem.calculate_power` returns the temperature-corrected
irradiance formula clamped above at `rated_power` only; it never exceeds
`rated_power`, and it is nonnegative whenever the irradiance, the temperature
factor, and the configuration parameters are nonnegative (nonnegative inputs
are otherwise the caller's responsibility). -/
theorem c4_pv_clamped_above (s : PVSystem) (irradiance temperature : ℚ) :
    s.calculate_power irradiance temperature =
      min ((irradiance / 1000) * s.panel_area * s.efficiency *
        (1 + s.temp_coefficient * (temperature - s.reference_temp)))
        s.rated_power ∧
    s.calculate_power irradiance temperature ≤ s.rated_power ∧
    (0 ≤ irradiance → 0 ≤ s.panel_area → 0 ≤ s.efficiency →
      0 ≤ 1 + s.temp_coefficient * (temperature - s.reference_temp) →
      0 ≤ s.rated_power →
      0 ≤ s.calculate_power irradiance temperature) := by
  refine ⟨rfl, min_le_right _ _, ?_⟩
  intro h1 h2 h3 h4 h5
  have hformula : 0 ≤ (irradiance / 1000) * s.panel_area * s.efficiency *
      (1 + s.temp_coefficient * (temperature - s.reference_temp)) := by
    have hi : 0 ≤ irradiance / 1000 := by positivity
    exact mul_nonneg (mul_nonneg (mul_nonneg hi h2) h3) h4
  exact le_min hformula h5

/-- C4 witness: the amended nonnegativity conclusion at irradiance
500 W/m², 25 °C on the default panel. -/
theorem c4_witness :
    (0 : ℚ) ≤ 500 ∧ 0 ≤ pv_default.calculate_power 500 25 :=
  ⟨by norm_num,
    (c4_pv_clamped_above pv_default 500 25).2.2 (by norm_num)
      (by norm_num [pv_default]) (by norm_num [pv_default])
      (by norm_num [pv_default]) (by norm_num [pv_default])⟩

/-- C5: `WindTurbine.calculate_power` is the claimed piecewise function —
0 strictly below cut-in or strictly above cut-out, exactly `rated_power` at
or above rated speed within cut-out, the rated-clamped cubic formula in
between — and the boundary tie-breaks hold: the cut-in speed itself falls in
the producing branches, the rated speed yields exactly `rated_power`, and the
cut-out speed still produces `rated_power`. -/
theorem c5_wind_piecewise (t : WindTurbine) (v : ℚ) :
    ((v < t.cut_in_speed ∨ v > t.cut_out_speed) → t.calculate_power v = 0) ∧
    (t.cut_in_speed ≤ v → v ≤ t.cut_out_speed → t.rated_speed ≤ v →
      t.calculate_power v = t.rated_power) ∧
    (t.cut_in_speed ≤ v → v ≤ t.cut_out_speed → v < t.rated_speed →
      t.calculate_power v =
        min ((1 / 2) * t.air_density * (np_pi * (t.rotor_diameter / 2) ^ 2) *
          t.power_coefficient * v ^ 3 / 1000) t.rated_power) ∧
    (t.cut_in_speed ≤ t.cut_out_speed → t.cut_in_speed < t.rated_speed →
      t.calculate_power t.cut_in_speed =
        min ((1 / 2) * t.air_density * (np_pi * (t.rotor_diameter / 2) ^ 2) *
          t.power_coefficient * t.cut_in_speed ^ 3 / 1000) t.rated_power) ∧
    (t.rated_speed ≤ t.cut_out_speed → t.cut_in_speed ≤ t.rated_speed →
      t.calculate_power t.rated_speed = t.rated_power) ∧
    (t.cut_in_speed ≤ t.cut_out_speed → t.rated_speed ≤ t.cut_out_speed →
      t.calculate_power t.cut_out_speed = t.rated_power) := by
  have hmain : ∀ w : ℚ,
      ((w < t.cut_in_speed ∨ w > t.cut_out_speed) → t.calculate_power w = 0) ∧
      (t.cut_in_speed ≤ w → w ≤ t.cut_out_speed → t.rated_speed ≤ w →
        t.calculate_power w = t.rated_power) ∧
      (t.cut_in_speed ≤ w → w ≤ t.cut_out_speed → w < t.rated_speed →
        t.calculate_power w =
          min ((1 / 2) * t.air_density * (np_pi * (t.rotor_diameter / 2) ^ 2) *
            t.power_coefficient * w ^ 3 / 1000) t.rated_power) := by
    intro w
    unfold WindTurbine.calculate_power
    refine ⟨fun hout => ?_, fun h1 h2 h3 => ?_, fun h1 h2 h3 => ?_⟩
    · rw [if_pos hout]
    · rw [if_neg (by push_neg; exact ⟨h1, h2⟩), if_pos h3]
    · rw [if_neg (by push_neg; exact ⟨h1, h2⟩), if_neg (by push_neg; exact h3)]
  refine ⟨(hmain v).1, (hmain v).2.1, (hmain v).2.2, ?_, ?_, ?_⟩
  · intro hio hir
    exact (hmain t.cut_in_speed).2.2 le_rfl hio hir
  · intro hro hir
    exact (hmain t.rated_speed).2.1 hir hro le_rfl
  · intro hio hro
    exact (hmain t.cut_out_speed).2.1 (le_trans hio le_rfl) le_rfl hro

/-- C5 witness: the default turbine at 15 m/s (between rated 12 and cut-out
25) delivers exactly its 30 kW rating. -/
theorem c5_witness :
    wt_default.cut_in_speed ≤ 15 ∧ (15 : ℚ) ≤ wt_default.cut_out_speed ∧
    wt_default.rated_speed ≤ 15 ∧ wt_default.calculate_power 15 = 30 := by
  refine ⟨by norm_num [wt_default], by norm_num [wt_default],
    by norm_num [wt_default], ?_⟩
  have h := (c5_wind_piecewise wt_default 15).2.1
    (by norm_num [wt_default]) (by norm_num [wt_default]) (by norm_num [wt_default])
  rw [h]
  norm_num [wt_default]

/-- C3: when the uncapped charge update would push the SOC above `max_soc`,
`BatteryStorage.charge` lands exactly on `max_soc` and recomputes the actual
power as `(max_soc − soc) * capacity / (dt * efficiency)`, which is strictly
less than the requested power. -/
theorem c3_charge_clamp (b : BatteryStorage) (power dt : ℚ)
    (hcap : 0 < b.capacity) (hdt : 0 < dt) (heff : 0 < b.efficiency)
    (hover : b.max_soc <
      b.soc + min power b.max_charge_rate * dt * b.efficiency / b.capacity) :
    (b.charge power dt).2.soc = b.max_soc ∧
    (b.charge power dt).1 =
      (b.max_soc - b.soc) * b.capacity / (dt * b.efficiency) ∧
    (b.charge power dt).1 < power := by
  have hcond : b.soc + min power b.max_charge_rate * dt * b.efficiency /
      b.capacity > b.max_soc := hover
  have hch : b.charge power dt =
      ((b.max_soc - b.soc) * b.capacity / (dt * b.efficiency),
        { b with soc := b.max_soc }) := by
    unfold BatteryStorage.charge
    rw [if_pos hcond]
  refine ⟨by rw [hch], by rw [hch], ?_⟩
  rw [hch]
  have hde : 0 < dt * b.efficiency := mul_pos hdt heff
  have hm : min power b.max_charge_rate ≤ power := min_le_left _ _
  have h1 : (b.max_soc - b.soc) * b.capacity <
      min power b.max_charge_rate * dt * b.efficiency := by
    have h0 : b.max_soc - b.soc <
        min power b.max_charge_rate * dt * b.efficiency / b.capacity := by
      linarith
    calc (b.max_soc - b.soc) * b.capacity
        < min power b.max_charge_rate * dt * b.efficiency / b.capacity *
            b.capacity := by
          exact mul_lt_mul_of_pos_right h0 hcap
      _ = min power b.max_charge_rate * dt * b.efficiency := by
          field_simp
  have h2 : min power b.max_charge_rate * (dt * b.efficiency) ≤
      power * (dt * b.efficiency) :=
    mul_le_mul_of_nonneg_right hm hde.le
  rw [div_lt_iff₀ hde]
  calc (b.max_soc - b.soc) * b.capacity
      < min power b.max_charge_rate * dt * b.efficiency := h1
    _ = min power b.max_charge_rate * (dt * b.efficiency) := by ring
    _ ≤ power * (dt * b.efficiency) := h2

/-- C3 witness: the default battery at SOC 0.5 asked to charge 1000 kW for
two hours would overshoot `max_soc = 0.95`; the call returns SOC exactly
0.95 and a reduced actual power of 25 kW. -/
theorem c3_witness :
    bat_default.max_soc < bat_default.soc +
      min 1000 bat_default.max_charge_rate * 2 * bat_default.efficiency /
        bat_default.capacity ∧
    (bat_default.charge 1000 2).2.soc = bat_default.max_soc ∧
    (bat_default.charge 1000 2).1 =
      (bat_default.max_soc - bat_default.soc) * bat_default.capacity /
        (2 * bat_default.efficiency) ∧
    (bat_default.charge 1000 2).1 < 1000 := by
  have hover : bat_default.max_soc < bat_default.soc +
      min 1000 bat_default.max_charge_rate * 2 * bat_default.efficiency /
        bat_default.capacity := by
    norm_num [bat_default, min_def]
  have h := c3_charge_clamp bat_default 1000 2
    (by norm_num [bat_default]) (by norm_num) (by norm_num [bat_default]) hover
  exact ⟨hover, h.1, h.2.1, h.2.2⟩

lemma apply_op_config (b : BatteryStorage) (op : BatteryOp) :
    (b.apply_op op).capacity = b.capacity ∧
    (b.apply_op op).max_charge_rate = b.max_charge_rate ∧
    (b.apply_op op).max_discharge_rate = b.max_discharge_rate ∧
    (b.apply_op op).efficiency = b.efficiency ∧
    (b.apply_op op).min_soc = b.min_soc ∧
    (b.apply_op op).max_soc = b.max_soc := by
  cases op <;>
    simp only [BatteryStorage.apply_op, BatteryStorage.charge,
      BatteryStorage.discharge] <;>
    split_ifs <;> simp

lemma apply_op_soc_bounds (b : BatteryStorage) (op : BatteryOp)
    (hcap : 0 < b.capacity) (heff : 0 < b.efficiency)
    (hmcr : 0 ≤ b.max_charge_rate) (hmdr : 0 ≤ b.max_discharge_rate)
    (hv : op.valid) (hlo : b.min_soc ≤ b.soc) (hhi : b.soc ≤ b.max_soc) :
    b.min_soc ≤ (b.apply_op op).soc ∧ (b.apply_op op).soc ≤ b.max_soc := by
  cases op with
  | charge_op p dt =>
    obtain ⟨hp, hdt⟩ := hv
    have hterm : 0 ≤ min p b.max_charge_rate * dt * b.efficiency /
        b.capacity :=
      div_nonneg
        (mul_nonneg (mul_nonneg (le_min hp hmcr) hdt.le) heff.le) hcap.le
    simp only [BatteryStorage.apply_op, BatteryStorage.charge]
    split_ifs with h
    · exact ⟨le_trans hlo hhi, le_rfl⟩
    · push_neg at h
      constructor
      · have hnew : b.min_soc ≤
            b.soc + min p b.max_charge_rate * dt * b.efficiency /
              b.capacity := by linarith
        simpa using hnew
      · simpa using h
  | discharge_op p dt =>
    obtain ⟨hp, hdt⟩ := hv
    have hterm : 0 ≤ min p b.max_discharge_rate * dt / b.efficiency /
        b.capacity :=
      div_nonneg
        (div_nonneg (mul_nonneg (le_min hp hmdr) hdt.le) heff.le) hcap.le
    simp only [BatteryStorage.apply_op, BatteryStorage.discharge]
    split_ifs with h
    · exact ⟨le_rfl, le_trans hlo hhi⟩
    · push_neg at h
      constructor
      · simpa using h
      · have hnew : b.soc - min p b.max_discharge_rate * dt / b.efficiency /
            b.capacity ≤ b.max_soc := by linarith
        simpa using hnew

/-- C2: from any initial SOC inside `[min_soc, max_soc]` and for any sequence
of `charge(power, dt)` / `discharge(power, dt)` calls with nonnegative power
and positive time step (on a configuration with positive capacity and
efficiency and nonnegative rate limits), the SOC stays inside
`[min_soc, max_soc]` after every call, i.e. after every prefix of the call
sequence. -/
theorem c2_soc_invariant (b : BatteryStorage) (ops : List BatteryOp)
    (hcap : 0 < b.capacity) (heff : 0 < b.efficiency)
    (hmcr : 0 ≤ b.max_charge_rate) (hmdr : 0 ≤ b.max_discharge_rate)
    (hvalid : ∀ op ∈ ops, op.valid)
    (hlo : b.min_soc ≤ b.soc) (hhi : b.soc ≤ b.max_soc) :
    ∀ k : ℕ, b.min_soc ≤ (b.apply_ops (ops.take k)).soc ∧
      (b.apply_ops (ops.take k)).soc ≤ b.max_soc := by
  induction ops generalizing b with
  | nil =>
    intro k
    simpa [BatteryStorage.apply_ops] using ⟨hlo, hhi⟩
  | cons op rest ih =>
    intro k
    cases k with
    | zero =>
      simpa [BatteryStorage.apply_ops] using ⟨hlo, hhi⟩
    | succ n =>
      have hvop : op.valid := hvalid op (List.mem_cons_self op rest)
      have hstep := apply_op_soc_bounds b op hcap heff hmcr hmdr hvop hlo hhi
      obtain ⟨e1, e2, e3, e4, e5, e6⟩ := apply_op_config b op
      have hrec := ih (b.apply_op op)
        (by rw [e1]; exact hcap) (by rw [e4]; exact heff)
        (by rw [e2]; exact hmcr) (by rw [e3]; exact hmdr)
        (fun o ho => hvalid o (List.mem_cons_of_mem op ho))
        (by rw [e5]; exact hstep.1) (by rw [e6]; exact hstep.2)
      have hfold : b.apply_ops ((op :: rest).take (n + 1)) =
          (b.apply_op op).apply_ops (rest.take n) := by
        simp [BatteryStorage.apply_ops]
      rw [hfold]
      rw [e5, e6] at hrec
      exact hrec n

/-- C2 witness: the default battery (SOC 0.5) after a 20 kW discharge for one
hour followed by a 100 kW charge request for one hour stays inside
`[0.2, 0.95]` at both intermediate and final states. -/
theorem c2_witness :
    (bat_default.min_soc ≤
        (bat_default.apply_ops
          ([BatteryOp.discharge_op 20 1, BatteryOp.charge_op 100 1].take 1)).soc ∧
      (bat_default.apply_ops
          ([BatteryOp.discharge_op 20 1, BatteryOp.charge_op 100 1].take 1)).soc ≤
        bat_default.max_soc) ∧
    (bat_default.min_soc ≤
        (bat_default.apply_ops
          ([BatteryOp.discharge_op 20 1, BatteryOp.charge_op 100 1].take 2)).soc ∧
      (bat_default.apply_ops
          ([BatteryOp.discharge_op 20 1, BatteryOp.charge_op 100 1].take 2)).soc ≤
        bat_default.max_soc) := by
  have h := c2_soc_invariant bat_default
    [BatteryOp.discharge_op 20 1, BatteryOp.charge_op 100 1]
    (by norm_num [bat_default]) (by norm_num [bat_default])
    (by norm_num [bat_default]) (by norm_num [bat_default])
    (by intro op hop
        simp only [List.mem_cons, List.mem_singleton] at hop
        rcases hop with h1 | h2
        · rw [h1]; exact ⟨by norm_num, by norm_num⟩
        · rcases h2 with h2 | h3
          · rw [h2]; exact ⟨by norm_num, by norm_num⟩
          · simp at h3)
    (by norm_num [bat_default]) (by norm_num [bat_default])
  exact ⟨h 1, h 2⟩

/-! Projection lemmas for `calculate_power_balance`: each returned field in
terms of the others, definitional in the source. -/

lemma pb_deficit_eq (g : DCMicrogrid) (fpow : ℚ → ℚ → ℚ)
    (irr temp ws dt : ℚ) :
    (g.calculate_power_balance fpow irr temp ws dt).1.power_deficit =
      (g.calculate_power_balance fpow irr temp ws dt).1.total_load -
        (g.calculate_power_balance fpow irr temp ws dt).1.total_generation :=
  rfl

lemma pb_net_eq (g : DCMicrogrid) (fpow : ℚ → ℚ → ℚ) (irr temp ws dt : ℚ) :
    (g.calculate_power_balance fpow irr temp ws dt).1.net_power =
      (g.calculate_power_balance fpow irr temp ws dt).1.total_generation +
        (g.calculate_power_balance fpow irr temp ws dt).1.battery_power -
        (g.calculate_power_balance fpow irr temp ws dt).1.total_load :=
  rfl

lemma pb_battery_power_eq (g : DCMicrogrid) (fpow : ℚ → ℚ → ℚ)
    (irr temp ws dt : ℚ) :
    (g.calculate_power_balance fpow irr temp ws dt).1.battery_power =
      (battery_step g.battery
        (g.calculate_power_balance fpow irr temp ws dt).1.power_deficit dt).1 :=
  rfl

lemma pb_battery_soc_eq (g : DCMicrogrid) (fpow : ℚ → ℚ → ℚ)
    (irr temp ws dt : ℚ) :
    (g.calculate_power_balance fpow irr temp ws dt).1.battery_soc =
      (battery_step g.battery
        (g.calculate_power_balance fpow irr temp ws dt).1.power_deficit
        dt).2.1 :=
  rfl

lemma pb_battery_state_eq (g : DCMicrogrid) (fpow : ℚ → ℚ → ℚ)
    (irr temp ws dt : ℚ) :
    (g.calculate_power_balance fpow irr temp ws dt).2.battery =
      (battery_step g.battery
        (g.calculate_power_balance fpow irr temp ws dt).1.power_deficit
        dt).2.2 :=
  rfl

lemma battery_step_pos (b : BatteryStorage) (d dt : ℚ) (hd : 0 < d) :
    battery_step (some b) d dt =
      ((b.discharge d dt).1, (b.discharge d dt).2.soc,
        some (b.discharge d dt).2) := by
  simp only [battery_step]
  rw [if_pos hd]

lemma battery_step_neg (b : BatteryStorage) (d dt : ℚ) (hd : d < 0) :
    battery_step (some b) d dt =
      ((b.charge (-d) dt).1, (b.charge (-d) dt).2.soc,
        some (b.charge (-d) dt).2) := by
  simp only [battery_step]
  rw [if_neg (by linarith : ¬ d > 0), if_pos hd]

lemma battery_step_zero (b : BatteryStorage) (d dt : ℚ) (hd : d = 0) :
    battery_step (some b) d dt = (0, b.soc, some b) := by
  subst hd
  simp [battery_step]

lemma battery_step_none (d dt : ℚ) :
    battery_step none d dt = (0, 0, none) :=
  rfl

lemma discharge_unclamped (b : BatteryStorage) (power dt : ℚ)
    (hrate : power ≤ b.max_discharge_rate)
    (hsoc : b.min_soc ≤ b.soc - power * dt / b.efficiency / b.capacity) :
    b.discharge power dt =
      (power,
        { b with soc := b.soc - power * dt / b.efficiency / b.capacity,
                 cycle_count := b.cycle_count + dt / 2 }) := by
  simp only [BatteryStorage.discharge, min_eq_left hrate]
  rw [if_neg (not_lt.mpr hsoc)]

lemma charge_unclamped (b : BatteryStorage) (power dt : ℚ)
    (hrate : power ≤ b.max_charge_rate)
    (hsoc : b.soc + power * dt * b.efficiency / b.capacity ≤ b.max_soc) :
    b.charge power dt =
      (power,
        { b with soc := b.soc + power * dt * b.efficiency / b.capacity }) := by
  simp only [BatteryStorage.charge, min_eq_left hrate]
  rw [if_neg (not_lt.mpr hsoc)]

/-- C1 (amended): with a battery enabled, `calculate_power_balance` reacts to
`power_deficit` exactly as the claim's branch structure states — discharge of
`min(deficit, max_discharge_rate)` on a positive deficit, charge of the
surplus on a negative one, untouched SOC and `battery_power = 0` at zero —
and always returns `net_power = total_generation + battery_power −
total_load`; but `battery_power` is the nonnegative transferred magnitude in
both directions (not negative while discharging), so `net_power` vanishes in
the unclamped discharge case while in the unclamped charge case it equals
twice the surplus, not 0. -/
theorem c1_power_balance_battery (g : DCMicrogrid) (b : BatteryStorage)
    (fpow : ℚ → ℚ → ℚ) (irr temp ws dt : ℚ) (r : PowerBalanceResult)
    (g2 : DCMicrogrid) (d : ℚ)
    (hb : g.battery = some b)
    (hr : (r, g2) = g.calculate_power_balance fpow irr temp ws dt)
    (hd : d = r.power_deficit) :
    (r.net_power = r.total_generation + r.battery_power - r.total_load) ∧
    (0 < d → r.battery_power = (b.discharge d dt).1 ∧
      r.battery_soc = (b.discharge d dt).2.soc ∧
      g2.battery = some (b.discharge d dt).2) ∧
    (d < 0 → r.battery_power = (b.charge (-d) dt).1 ∧
      r.battery_soc = (b.charge (-d) dt).2.soc ∧
      g2.battery = some (b.charge (-d) dt).2) ∧
    (d = 0 → r.battery_power = 0 ∧ r.battery_soc = b.soc ∧
      g2.battery = some b) ∧
    (0 < d → d ≤ b.max_discharge_rate →
      b.min_soc ≤ b.soc - d * dt / b.efficiency / b.capacity →
      r.battery_power = d ∧ r.net_power = 0) ∧
    (d < 0 → -d ≤ b.max_charge_rate →
      b.soc + -d * dt * b.efficiency / b.capacity ≤ b.max_soc →
      r.battery_power = -d ∧ 0 < r.battery_power ∧
        r.net_power = -(2 * d) ∧ r.net_power ≠ 0) := by
  have h1 : r = (g.calculate_power_balance fpow irr temp ws dt).1 :=
    congrArg Prod.fst hr
  have h2 : g2 = (g.calculate_power_balance fpow irr temp ws dt).2 :=
    congrArg Prod.snd hr
  subst h1
  subst h2
  subst hd
  have hnet := pb_net_eq g fpow irr temp ws dt
  have hdef := pb_deficit_eq g fpow irr temp ws dt
  have hbp := pb_battery_power_eq g fpow irr temp ws dt
  have hbsoc := pb_battery_soc_eq g fpow irr temp ws dt
  have hbst := pb_battery_state_eq g fpow irr temp ws dt
  rw [hb] at hbp hbsoc hbst
  refine ⟨hnet, ?_, ?_, ?_, ?_, ?_⟩
  · intro hpos
    rw [battery_step_pos b _ dt hpos] at hbp hbsoc hbst
    exact ⟨hbp, hbsoc, hbst⟩
  · intro hneg
    rw [battery_step_neg b _ dt hneg] at hbp hbsoc hbst
    exact ⟨hbp, hbsoc, hbst⟩
  · intro hzero
    rw [battery_step_zero b _ dt hzero] at hbp hbsoc hbst
    exact ⟨hbp, hbsoc, hbst⟩
  · intro hpos hrate hsoc
    rw [battery_step_pos b _ dt hpos] at hbp
    rw [discharge_unclamped b _ dt hrate hsoc] at hbp
    refine ⟨hbp, ?_⟩
    rw [hnet, hbp]
    have hld := hdef
    linarith
  · intro hneg hrate hsoc
    rw [battery_step_neg b _ dt hneg] at hbp
    rw [charge_unclamped b _ dt hrate hsoc] at hbp
    refine ⟨hbp, by rw [hbp]; linarith, ?_, ?_⟩
    · rw [hnet, hbp]
      linarith [hdef]
    · rw [hnet, hbp]
      intro hcontra
      have := hdef
      linarith

/-- C1 counterexample: a microgrid with the default PV and battery and no
load, at irradiance 500 W/m², has a 25.02 kW surplus
(`power_deficit = −25.02`); the battery absorbs it all
(`battery_power = 25.02 = −power_deficit`, SOC rises unclamped to 0.72518, no
rate or SOC bound binds), yet the returned `net_power` is 50.04 ≠ 0, because
the code adds the charging power with a positive sign instead of the claimed
negative charging convention. -/
theorem c1_counterexample :
    (grid_pv_bat.calculate_power_balance pow_model 500 25 0 1).1.power_deficit =
      -(1251 / 50) ∧
    (grid_pv_bat.calculate_power_balance pow_model 500 25 0 1).1.battery_power =
      1251 / 50 ∧
    (grid_pv_bat.calculate_power_balance pow_model 500 25 0 1).1.battery_power =
      -(grid_pv_bat.calculate_power_balance pow_model 500 25 0 1).1.power_deficit ∧
    (grid_pv_bat.calculate_power_balance pow_model 500 25 0 1).1.battery_soc =
      36259 / 50000 ∧
    (grid_pv_bat.calculate_power_balance pow_model 500 25 0 1).1.net_power =
      1251 / 25 ∧
    (grid_pv_bat.calculate_power_balance pow_model 500 25 0 1).1.net_power ≠ 0 := by
  norm_num [DCMicrogrid.calculate_power_balance, battery_step, grid_pv_bat,
    pv_default, bat_default, PVSystem.calculate_power, BatteryStorage.charge,
    pow_model, min_def]

/-- C1 witness: on a 20 kW deficit with the default battery neither the rate
limit nor the SOC bound binds, and the amended theorem yields
`battery_power = 20` and `net_power = 0`. -/
theorem c1_witness :
    (grid_load_bat.calculate_power_balance pow_model 0 0 0 1).1.power_deficit =
      20 ∧
    (grid_load_bat.calculate_power_balance pow_model 0 0 0 1).1.battery_power =
      20 ∧
    (grid_load_bat.calculate_power_balance pow_model 0 0 0 1).1.net_power =
      0 := by
  have hd20 :
      (grid_load_bat.calculate_power_balance pow_model 0 0 0 1).1.power_deficit =
        20 := by
    norm_num [DCMicrogrid.calculate_power_balance, battery_step, grid_load_bat,
      bat_default, load_default, Load.calculate_power, BatteryStorage.discharge,
      pow_model, min_def]
  have h := c1_power_balance_battery grid_load_bat bat_default pow_model 0 0 0 1
    (grid_load_bat.calculate_power_balance pow_model 0 0 0 1).1
    (grid_load_bat.calculate_power_balance pow_model 0 0 0 1).2
    ((grid_load_bat.calculate_power_balance pow_model 0 0 0 1).1.power_deficit)
    rfl rfl rfl
  rw [hd20] at h
  have hout := h.2.2.2.2.1 (by norm_num) (by norm_num [bat_default])
    (by norm_num [bat_default])
  exact ⟨hd20, hout.1, hout.2⟩

/-- C10: when the `bess` section is disabled (no battery object),
`calculate_power_balance` reports `battery_power = 0` and `battery_soc = 0`;
since every documented operating band has a positive lower bound, the
reported `battery_soc` then lies outside `[min_soc, max_soc]`. -/
theorem c10_no_battery (g : DCMicrogrid) (fpow : ℚ → ℚ → ℚ)
    (irr temp ws dt : ℚ) (hb : g.battery = none) :
    (g.calculate_power_balance fpow irr temp ws dt).1.battery_power = 0 ∧
    (g.calculate_power_balance fpow irr temp ws dt).1.battery_soc = 0 ∧
    ∀ lo hi : ℚ, 0 < lo →
      (g.calculate_power_balance fpow irr temp ws dt).1.battery_soc ∉
        Set.Icc lo hi := by
  have hbp := pb_battery_power_eq g fpow irr temp ws dt
  have hbsoc := pb_battery_soc_eq g fpow irr temp ws dt
  rw [hb, battery_step_none] at hbp hbsoc
  refine ⟨hbp, hbsoc, ?_⟩
  intro lo hi hlo hmem
  rw [hbsoc, Set.mem_Icc] at hmem
  have hm1 := hmem.1
  norm_num at hm1
  linarith

/-- C10 witness: a concrete microgrid with `bess` disabled reports
`battery_power = 0` and a `battery_soc` of 0, outside the default band
`[0.2, 0.95]`. -/
theorem c10_witness :
    grid_no_bat.battery = none ∧
    (grid_no_bat.calculate_power_balance pow_model 0 0 0 1).1.battery_power =
      0 ∧
    (grid_no_bat.calculate_power_balance pow_model 0 0 0 1).1.battery_soc =
      0 ∧
    (grid_no_bat.calculate_power_balance pow_model 0 0 0 1).1.battery_soc ∉
      Set.Icc (1 / 5 : ℚ) (19 / 20) := by
  have h := c10_no_battery grid_no_bat pow_model 0 0 0 1 rfl
  exact ⟨rfl, h.1, h.2.1, h.2.2 (1 / 5) (19 / 20) (by norm_num)⟩

/-- C8 (amended): `Load.get_current` does guard its division — it returns 0
at zero voltage and `power * 1000 / voltage` otherwise — but
`check_system_stability` has no such guard: its division by
`current_voltage` raises `ZeroDivisionError` (modelled by `none`) whenever
`current_voltage = 0`, instead of returning a sentinel result; with nonzero
bus and nominal voltages it returns a defined report. -/
theorem c8_zero_voltage :
    (∀ l : Load, l.get_current 0 = 0) ∧
    (∀ (l : Load) (v : ℚ), v ≠ 0 → l.get_current v = l.power * 1000 / v) ∧
    (∀ (g : DCMicrogrid) (prot : ProtectionConfig) (pb : PowerBalanceResult),
      g.current_voltage = 0 → g.check_system_stability prot pb = none) ∧
    (∀ (g : DCMicrogrid) (prot : ProtectionConfig) (pb : PowerBalanceResult),
      g.current_voltage ≠ 0 → g.voltage_level ≠ 0 →
      ∃ rep, g.check_system_stability prot pb = some rep) := by
  refine ⟨?_, ?_, ?_, ?_⟩
  · intro l
    simp [Load.get_current]
  · intro l v hv
    simp [Load.get_current, hv]
  · intro g prot pb h0
    by_cases hvl : g.voltage_level = 0 <;>
      simp [DCMicrogrid.check_system_stability, pydiv, h0, hvl]
  · intro g prot pb hcv hvl
    simp [DCMicrogrid.check_system_stability, pydiv, hcv, hvl]

/-- C8 counterexample: at `current_voltage = 0` the stability check raises
(`none` models the `ZeroDivisionError` of `net_power * 1000 /
current_voltage`) instead of returning the claimed sentinel result. -/
theorem c8_counterexample :
    grid_zero_voltage.current_voltage = 0 ∧
    grid_zero_voltage.check_system_stability prot_default pb_sample = none := by
  constructor
  · rfl
  · norm_num [DCMicrogrid.check_system_stability, pydiv, grid_zero_voltage]

/-- C8 witness: the amended statement at a concrete load, the zero-voltage
grid, and a healthy 400 V grid. -/
theorem c8_witness :
    load_default.get_current 0 = 0 ∧
    grid_zero_voltage.current_voltage = 0 ∧
    grid_zero_voltage.check_system_stability prot_default pb_sample = none ∧
    (∃ rep, grid_load_bat.check_system_stability prot_default pb_sample =
      some rep) := by
  have h := c8_zero_voltage
  exact ⟨h.1 load_default, rfl,
    h.2.2.1 grid_zero_voltage prot_default pb_sample rfl,
    h.2.2.2 grid_load_bat prot_default pb_sample
      (by norm_num [grid_load_bat]) (by norm_num [grid_load_bat])⟩

/-- C6: on a window of at least `sequence_length` samples (the scaler
preserves the sample count), `detect_fault` returns a result whose
`fault_detected` is true exactly when the argmax class of the prediction on
the last window differs from class 0 (`no_fault`) and its probability
reaches `confidence_threshold`; in particular a fault-type top class with
sub-threshold confidence reports `fault_detected = false`. -/
theorem c6_fault_gate {α : Type} (fd : FaultDetector)
    (transform : List α → List α) (model_predict : List α → List ℚ)
    (data : List α) (hpos : 0 < fd.sequence_length)
    (hpres : (transform data).length = data.length)
    (hlen : fd.sequence_length ≤ data.length) :
    ∃ res : FaultDetectionResult,
      fd.detect_fault transform model_predict data = some res ∧
      (res.fault_detected = true ↔
        np_argmax (model_predict ((transform data).drop
            ((transform data).length - fd.sequence_length))) ≠ 0 ∧
          fd.confidence_threshold ≤
            (model_predict ((transform data).drop
                ((transform data).length - fd.sequence_length))).getD
              (np_argmax (model_predict ((transform data).drop
                ((transform data).length - fd.sequence_length)))) 0) := by
  have hne : data.isEmpty = false := by
    cases data with
    | nil => simp at hlen; omega
    | cons a t => rfl
  unfold FaultDetector.detect_fault FaultDetector.preprocess_data
    sklearn_fit_transform
  rw [hne]
  simp only [Bool.false_eq_true, if_false]
  rw [if_neg (not_lt.mpr (by rw [hpres]; exact hlen))]
  refine ⟨_, rfl, ?_⟩
  simp [Bool.and_eq_true, decide_eq_true_eq, ge_iff_le]

/-- C6 witness: a 3-sample window with a 2-sample detector whose prediction
puts probability 0.9 on class 1 (`short_circuit`), above the 0.85 threshold:
the gate reports a detection. -/
theorem c6_witness :
    0 < fd_small.sequence_length ∧
    (∃ res : FaultDetectionResult,
      fd_small.detect_fault (fun l => l)
          (fun _ => [1 / 10, 9 / 10, 0, 0, 0, 0, 0]) ([0, 1, 2] : List ℚ) =
        some res ∧
      (res.fault_detected = true ↔
        np_argmax ((fun _ : List ℚ => [(1 : ℚ) / 10, 9 / 10, 0, 0, 0, 0, 0])
            ((((fun l => l) ([0, 1, 2] : List ℚ))).drop
              ((((fun l => l) ([0, 1, 2] : List ℚ))).length -
                fd_small.sequence_length))) ≠ 0 ∧
          fd_small.confidence_threshold ≤
            (((fun _ : List ℚ => [(1 : ℚ) / 10, 9 / 10, 0, 0, 0, 0, 0])
                ((((fun l => l) ([0, 1, 2] : List ℚ))).drop
                  ((((fun l => l) ([0, 1, 2] : List ℚ))).length -
                    fd_small.sequence_length)))).getD
              (np_argmax ((fun _ : List ℚ =>
                  [(1 : ℚ) / 10, 9 / 10, 0, 0, 0, 0, 0])
                ((((fun l => l) ([0, 1, 2] : List ℚ))).drop
                  ((((fun l => l) ([0, 1, 2] : List ℚ))).length -
                    fd_small.sequence_length)))) 0)) :=
  ⟨by decide,
    c6_fault_gate fd_small (fun l => l)
      (fun _ => [1 / 10, 9 / 10, 0, 0, 0, 0, 0]) ([0, 1, 2] : List ℚ)
      (by decide) rfl (by decide)⟩

/-- C7 (amended): on a window with at least one but fewer than
`sequence_length` samples, `detect_fault` returns the sentinel
`{fault_detected := false, fault_type := no_fault, confidence := 0}` with an
explanatory message and does not raise; the empty window, however, reaches
the scaler before the length check and raises there (see the
counterexample). -/
theorem c7_insufficient_data {α : Type} (fd : FaultDetector)
    (transform : List α → List α) (model_predict : List α → List ℚ)
    (data : List α) (hne : data ≠ [])
    (hpres : (transform data).length = data.length)
    (hshort : data.length < fd.sequence_length) :
    fd.detect_fault transform model_predict data =
      some { fault_detected := false, fault_type := "no_fault",
             confidence := 0,
             message := some "Insufficient data for detection" } := by
  have hne2 : data.isEmpty = false := by
    cases data with
    | nil => exact absurd rfl hne
    | cons a t => rfl
  unfold FaultDetector.detect_fault FaultDetector.preprocess_data
    sklearn_fit_transform
  rw [hne2]
  simp only [Bool.false_eq_true, if_false]
  rw [if_pos (by rw [hpres]; exact hshort)]

/-- C7 counterexample: on the empty window, `detect_fault` reaches
`StandardScaler.fit_transform` before any length check, and the scaler
raises `ValueError` on zero samples (modelled by `none`): no sentinel result
is returned, refuting the "including an empty window, never raises"
claim. -/
theorem c7_counterexample :
    fd_default.detect_fault (fun l => l) (fun _ => ([] : List ℚ))
        ([] : List ℚ) = none ∧
    ∀ res : FaultDetectionResult,
      fd_default.detect_fault (fun l => l) (fun _ => ([] : List ℚ))
        ([] : List ℚ) ≠ some res := by
  have h0 : fd_default.detect_fault (fun l => l) (fun _ => ([] : List ℚ))
      ([] : List ℚ) = none := rfl
  exact ⟨h0, fun res h => by rw [h0] at h; exact Option.noConfusion h⟩

/-- C7 witness: a 3-sample window against the default 100-sample detector
yields the sentinel insufficient-data result. -/
theorem c7_witness :
    ([0, 1, 2] : List ℚ) ≠ [] ∧
    fd_default.detect_fault (fun l => l) (fun _ => ([] : List ℚ))
        ([0, 1, 2] : List ℚ) =
      some { fault_detected := false, fault_type := "no_fault",
             confidence := 0,
             message := some "Insufficient data for detection" } :=
  ⟨by simp,
    c7_insufficient_data fd_default (fun l => l) (fun _ => ([] : List ℚ))
      ([0, 1, 2] : List ℚ) (by simp) rfl (by decide)⟩

end Microgrid
